import Mathlib

/-!
Verification of the playing-card / deck program (`OOP_EXAM_P2.py`).

The Python source is shallowly embedded: the `CardSuit` and `CardRank`
enumerations become inductive types carrying their ordinal `value`; a
`Card` is a structure of a suit and a rank; the `Deck`'s mutable list of
cards is modelled as a `List Card`, each method becoming a pure function
on that list.  Python's `None` results become `Option`, raised exceptions
become an explicit `PyError` result with the (unchanged) state.
-/

/-- Embedding of `class CardSuit(Enum)`, members in declaration order. -/
inductive CardSuit where
  | CLUBS
  | DIAMONDS
  | HEARTS
  | SPADES
deriving DecidableEq, Fintype, Repr

/-- Embedding of the ordinal of each `CardSuit` member (`.value` in Python). -/
def CardSuit.value : CardSuit → Nat
  | .CLUBS => 1
  | .DIAMONDS => 2
  | .HEARTS => 3
  | .SPADES => 4

/-- Embedding of `class CardRank(Enum)`, members in declaration order. -/
inductive CardRank where
  | TWO
  | THREE
  | FOUR
  | FIVE
  | SIX
  | SEVEN
  | EIGHT
  | NINE
  | TEN
  | JACK
  | QUEEN
  | KING
  | ACE
deriving DecidableEq, Fintype, Repr

/-- Embedding of the ordinal of each `CardRank` member (`.value` in Python). -/
def CardRank.value : CardRank → Nat
  | .TWO => 2
  | .THREE => 3
  | .FOUR => 4
  | .FIVE => 5
  | .SIX => 6
  | .SEVEN => 7
  | .EIGHT => 8
  | .NINE => 9
  | .TEN => 10
  | .JACK => 11
  | .QUEEN => 12
  | .KING => 13
  | .ACE => 14

/-- Embedding of `class Card`: an immutable pair of a suit and a rank
(`self._suit`, `self._rank`). -/
structure Card where
  suit : CardSuit
  rank : CardRank
deriving DecidableEq, Fintype, Repr

/-- Embedding of the tuple comparison in `Card.__eq__`:
`(self._rank.value, self._suit.value) == (other._rank.value, other._suit.value)`. -/
def cardEqb (a b : Card) : Bool :=
  decide (a.rank.value = b.rank.value) && decide (a.suit.value = b.suit.value)

/-- Embedding of the tuple comparison in `Card.__lt__`: lexicographic `<`
on `(rank.value, suit.value)`. -/
def cardLt (a b : Card) : Bool :=
  decide (a.rank.value < b.rank.value) ||
    (decide (a.rank.value = b.rank.value) && decide (a.suit.value < b.suit.value))

/-- Embedding of the tuple comparison in `Card.__gt__`: lexicographic `>`
on `(rank.value, suit.value)`. -/
def cardGt (a b : Card) : Bool :=
  decide (b.rank.value < a.rank.value) ||
    (decide (a.rank.value = b.rank.value) && decide (b.suit.value < a.suit.value))

/-- Values a Python caller may pass where a `Card` is expected: either an
actual `Card` instance or some non-`Card` object (modelled by a few
representative shapes).  `isinstance(v, Card)` holds exactly on `.card`. -/
inductive PyValue where
  | card (c : Card)
  | intVal (n : Int)
  | strVal (s : String)
  | noneVal
deriving DecidableEq

/-- Embedding of `isinstance(v, Card)`. -/
def PyValue.isCard : PyValue → Bool
  | .card _ => true
  | _ => false

/-- The result of a Python rich-comparison method: either a boolean, or the
`NotImplemented` sentinel that declines the comparison and leaves the
outcome to the interpreter. -/
inductive CmpResult where
  | result (b : Bool)
  | notImplemented
deriving DecidableEq

/-- Embedding of `Card.__eq__`: returns `NotImplemented` for a non-`Card`
operand, otherwise the tuple equality. -/
def Card.pyEq (a : Card) (other : PyValue) : CmpResult :=
  match other with
  | .card b => .result (cardEqb a b)
  | _ => .notImplemented

/-- Embedding of `Card.__lt__`: returns `NotImplemented` for a non-`Card`
operand, otherwise the tuple `<`. -/
def Card.pyLt (a : Card) (other : PyValue) : CmpResult :=
  match other with
  | .card b => .result (cardLt a b)
  | _ => .notImplemented

/-- Embedding of `Card.__gt__`: returns `NotImplemented` for a non-`Card`
operand, otherwise the tuple `>`. -/
def Card.pyGt (a : Card) (other : PyValue) : CmpResult :=
  match other with
  | .card b => .result (cardGt a b)
  | _ => .notImplemented

/-- Exceptions the program can raise: `TypeError` from `add_card`,
`IndexError` from list indexing, and the declared-but-unused
`DeckCheatingError`. -/
inductive PyError where
  | typeError
  | indexError
  | deckCheatingError
deriving DecidableEq

/-- The 64-bit modulus of CPython's hash arithmetic. -/
def U64 : Nat := 2 ^ 64

/-- xxHash prime 1, as used by CPython's tuple hash. -/
def xxPrime1 : Nat := 11400714785074694791

/-- xxHash prime 2, as used by CPython's tuple hash. -/
def xxPrime2 : Nat := 14029467366897019727

/-- xxHash prime 5, as used by CPython's tuple hash. -/
def xxPrime5 : Nat := 2870177450012600261

/-- 64-bit left rotation. -/
def rotl64 (x r : Nat) : Nat :=
  ((x <<< r) % U64) ||| ((x % U64) >>> (64 - r))

/-- One lane-mixing step of CPython's tuple hash. -/
def hashLane (acc lane : Nat) : Nat :=
  (rotl64 ((acc + lane * xxPrime2) % U64) 31 * xxPrime1) % U64

/-- Embedding of CPython's `hash((x, y))` for two small non-negative
integers (whose own hash is the identity): the xxHash-based tuple hash of
`tupleobject.c`, in `Nat` arithmetic modulo `2 ^ 64`. -/
def pyTupleHash2 (x y : Nat) : Nat :=
  let acc := hashLane (hashLane xxPrime5 x) y
  let acc := (acc + (2 ^^^ (xxPrime5 ^^^ 3527539))) % U64
  if acc = U64 - 1 then 1546275796 else acc

/-- Embedding of `Card.__hash__`:
`hash((self._rank.value, self._suit.value))`. -/
def cardHash (c : Card) : Nat :=
  pyTupleHash2 c.rank.value c.suit.value

/-- The members of `CardSuit` in declaration order (iteration order of the
Python `Enum`). -/
def suitList : List CardSuit :=
  [.CLUBS, .DIAMONDS, .HEARTS, .SPADES]

/-- The members of `CardRank` in declaration order (iteration order of the
Python `Enum`). -/
def rankList : List CardRank :=
  [.TWO, .THREE, .FOUR, .FIVE, .SIX, .SEVEN, .EIGHT, .NINE, .TEN,
   .JACK, .QUEEN, .KING, .ACE]

namespace Deck

/-- Embedding of the list comprehension in `Deck.__init__` with
`shuffle=False`:
`[Card(suit, rank) for suit in CardSuit for rank in CardRank]`. -/
def freshDeck : List Card :=
  suitList.flatMap (fun suit => rankList.map (fun rank => Card.mk suit rank))

/-- Embedding of the `cards` property, `return list(self._cards)`, at the
level of contents (the heap/copy behaviour is modelled separately by
`cardsProp`). -/
def cards (deck : List Card) : List Card :=
  deck

/-- Embedding of `Deck.draw`:
`return self._cards.pop(0) if self._cards else None`.  Returns the drawn
card (or `none`) together with the deck contents afterwards. -/
def draw (deck : List Card) : Option Card × List Card :=
  match deck with
  | [] => (none, [])
  | c :: rest => (some c, rest)

/-- Embedding of `Deck.add_card`: raising `TypeError` on a non-`Card`
argument leaves the list untouched; otherwise the card is appended.  The
result pairs the raised error (if any) with the deck contents afterwards,
which is also what the returned `self` holds. -/
def add_card (deck : List Card) (v : PyValue) : Option PyError × List Card :=
  match v with
  | .card c => (none, deck ++ [c])
  | _ => (some .typeError, deck)

/-- Embedding of `Deck.__len__`: `len(self._cards)`. -/
def pyLen (deck : List Card) : Nat :=
  deck.length

/-- Embedding of CPython's builtin `max`/`min` over a list, parameterised
by the rich comparison it applies (`Py_GT` for `max`, `Py_LT` for `min`):
the running best is replaced whenever `f item best` holds; an empty input
gives no value (the source guards with `if self._cards`). -/
def builtinSelect (f : Card → Card → Bool) : List Card → Option Card
  | [] => none
  | c :: rest => some (rest.foldl (fun best item => if f item best then item else best) c)

/-- Embedding of `Deck.max`: `max(self._cards) if self._cards else None`. -/
def pyMax (deck : List Card) : Option Card :=
  builtinSelect cardGt deck

/-- Embedding of `Deck.min`: `min(self._cards) if self._cards else None`. -/
def pyMin (deck : List Card) : Option Card :=
  builtinSelect cardLt deck

/-- Embedding of the generator `Deck.__iter__` as the list of values it
yields: `max` then `min` when both exist, nothing otherwise. -/
def iterList (deck : List Card) : List Card :=
  match pyMax deck, pyMin deck with
  | some highest, some lowest => [highest, lowest]
  | _, _ => []

/-- Embedding of `Deck.__getitem__`, `return self._cards[index]`, with
Python list-index semantics: a negative index counts from the end, an
out-of-range index raises `IndexError`. -/
def getitem (deck : List Card) (index : Int) : Except PyError Card :=
  if 0 ≤ index then
    if h : index.toNat < deck.length then .ok (deck.get ⟨index.toNat, h⟩)
    else .error .indexError
  else
    if h : ((deck.length : Int) + index).toNat < deck.length ∧ 0 ≤ (deck.length : Int) + index then
      .ok (deck.get ⟨((deck.length : Int) + index).toNat, h.1⟩)
    else .error .indexError

end Deck

/-- A heap of Python list objects: a bump allocator over references, each
reference holding the list contents. -/
structure Store where
  next : Nat
  mem : Nat → List Card

/-- Allocate a fresh list object holding the given contents. -/
def Store.alloc (s : Store) (l : List Card) : Nat × Store :=
  (s.next, ⟨s.next + 1, fun r => if r = s.next then l else s.mem r⟩)

/-- In-place mutation of the list object behind a reference. -/
def Store.setList (s : Store) (r : Nat) (l : List Card) : Store :=
  ⟨s.next, fun q => if q = r then l else s.mem q⟩

/-- Embedding of the `cards` property at the heap level:
`return list(self._cards)` allocates a fresh list object copying the
deck's current contents and returns its reference. -/
def Deck.cardsProp (s : Store) (deckRef : Nat) : Nat × Store :=
  s.alloc (s.mem deckRef)

/-- The Two of Clubs, the first card enumerated by `Deck.__init__`. -/
def twoOfClubs : Card :=
  Card.mk .CLUBS .TWO

/- Helper lemmas about the card ordering and the builtin `max`/`min`
selection fold. -/

lemma cardGt_irrefl (a : Card) : cardGt a a = false := by
  simp [cardGt]

lemma cardLt_irrefl (a : Card) : cardLt a a = false := by
  simp [cardLt]

lemma cardGt_asymm (a b : Card) : cardGt a b = true → cardGt b a = false := by
  simp only [cardGt, Bool.or_eq_true, Bool.and_eq_true, Bool.or_eq_false_iff,
    Bool.and_eq_false_iff, decide_eq_true_eq, decide_eq_false_iff_not]
  omega

lemma cardLt_asymm (a b : Card) : cardLt a b = true → cardLt b a = false := by
  simp only [cardLt, Bool.or_eq_true, Bool.and_eq_true, Bool.or_eq_false_iff,
    Bool.and_eq_false_iff, decide_eq_true_eq, decide_eq_false_iff_not]
  omega

lemma cardGt_nle_trans (a b c : Card) :
    cardGt a b = false → cardGt b c = false → cardGt a c = false := by
  simp only [cardGt, Bool.or_eq_false_iff, Bool.and_eq_false_iff,
    decide_eq_false_iff_not]
  omega

lemma cardLt_nle_trans (a b c : Card) :
    cardLt a b = false → cardLt b c = false → cardLt a c = false := by
  simp only [cardLt, Bool.or_eq_false_iff, Bool.and_eq_false_iff,
    decide_eq_false_iff_not]
  omega

lemma selectFold_mem (f : Card → Card → Bool) :
    ∀ (l : List Card) (a : Card),
      l.foldl (fun best item => if f item best then item else best) a = a ∨
        l.foldl (fun best item => if f item best then item else best) a ∈ l := by
  intro l
  induction l with
  | nil => intro a; exact Or.inl rfl
  | cons b t ih =>
    intro a
    simp only [List.foldl_cons]
    by_cases hb : f b a = true
    · rw [if_pos hb]
      rcases ih b with h | h
      · exact Or.inr (List.mem_cons.mpr (Or.inl h))
      · exact Or.inr (List.mem_cons_of_mem b h)
    · rw [if_neg hb]
      rcases ih a with h | h
      · exact Or.inl h
      · exact Or.inr (List.mem_cons_of_mem b h)

lemma selectFold_best (f : Card → Card → Bool)
    (hirr : ∀ a, f a a = false)
    (hasym : ∀ a b, f a b = true → f b a = false)
    (htr : ∀ a b c, f a b = false → f b c = false → f a c = false) :
    ∀ (l : List Card) (a x : Card), (x = a ∨ x ∈ l) →
      f x (l.foldl (fun best item => if f item best then item else best) a) = false := by
  intro l
  induction l with
  | nil =>
    intro a x hx
    rcases hx with rfl | h
    · exact hirr x
    · cases h
  | cons b t ih =>
    intro a x hx
    simp only [List.foldl_cons]
    by_cases hb : f b a = true
    · rw [if_pos hb]
      rcases hx with rfl | hmem
      · exact htr x b _ (hasym b x hb) (ih b b (Or.inl rfl))
      · rcases List.mem_cons.mp hmem with rfl | ht
        · exact ih x x (Or.inl rfl)
        · exact ih b x (Or.inr ht)
    · rw [if_neg hb]
      rcases hx with rfl | hmem
      · exact ih x x (Or.inl rfl)
      · rcases List.mem_cons.mp hmem with rfl | ht
        · exact htr x a _ (Bool.eq_false_iff.mpr hb) (ih a a (Or.inl rfl))
        · exact ih a x (Or.inr ht)



/-- C1: iterating a deck yields exactly two values when it is non-empty —
first `max`, then `min` — yields zero values when it is empty, and never
yields more than two values, so it never enumerates the full contents of
a larger deck. -/
theorem claim_C1 (deck : List Card) :
    (deck = [] → Deck.iterList deck = []) ∧
    (deck ≠ [] → ∃ m n, Deck.pyMax deck = some m ∧ Deck.pyMin deck = some n ∧
      Deck.iterList deck = [m, n]) ∧
    (Deck.iterList deck).length ≤ 2 := by
  cases deck with
  | nil => exact ⟨fun _ => rfl, fun h => absurd rfl h, by decide⟩
  | cons c t =>
    refine ⟨?_, ?_, ?_⟩
    · intro h
      cases h
    · intro _
      exact ⟨_, _, rfl, rfl, rfl⟩
    · exact Nat.le_refl 2

/-- Witness for C1 at the empty deck and a concrete one-card deck. -/
theorem claim_C1_witness :
    Deck.iterList ([] : List Card) = [] ∧
    (∃ m n, Deck.pyMax [twoOfClubs] = some m ∧ Deck.pyMin [twoOfClubs] = some n ∧
      Deck.iterList [twoOfClubs] = [m, n]) :=
  ⟨(claim_C1 []).1 rfl, (claim_C1 [twoOfClubs]).2.1 (by simp)⟩

/-- C2: the unshuffled deck holds every (suit, rank) pair exactly once, 52
cards in all, in suit-major rank-minor order (the pair (s, r) sits at index
13 * (s.value - 1) + (r.value - 2), so enumeration starts at Clubs/Two),
and the first draw returns the Two of Clubs. -/
theorem claim_C2 :
    (∀ s : CardSuit, ∀ r : CardRank, Deck.freshDeck.count (Card.mk s r) = 1) ∧
    Deck.freshDeck.length = 52 ∧
    (∀ s : CardSuit, ∀ r : CardRank,
      Deck.freshDeck.indexOf (Card.mk s r) = 13 * (s.value - 1) + (r.value - 2)) ∧
    Deck.draw Deck.freshDeck = (some twoOfClubs, Deck.freshDeck.tail) :=
  ⟨by decide, by decide, by decide, by decide⟩

/-- C3: drawing from a non-empty deck returns the front card (position 0)
and leaves the former positions 1..N-1 in the same relative order, one
card shorter. -/
theorem claim_C3 (c : Card) (rest : List Card) :
    Deck.draw (c :: rest) = ((c :: rest).head?, (c :: rest).drop 1) ∧
    (Deck.draw (c :: rest)).2.length + 1 = (c :: rest).length :=
  ⟨rfl, rfl⟩

/-- C4: on the empty deck `draw`, `max` and `min` all return the absent
marker without raising; on a non-empty deck `max` and `min` return members
of the deck that are greatest and least under the card ordering. -/
theorem claim_C4 (deck : List Card) :
    (deck = [] → Deck.draw deck = (none, []) ∧ Deck.pyMax deck = none ∧
      Deck.pyMin deck = none) ∧
    (deck ≠ [] → ∃ m, Deck.pyMax deck = some m ∧ m ∈ deck ∧
      ∀ x, x ∈ deck → cardGt x m = false) ∧
    (deck ≠ [] → ∃ n, Deck.pyMin deck = some n ∧ n ∈ deck ∧
      ∀ x, x ∈ deck → cardLt x n = false) := by
  cases deck with
  | nil => exact ⟨fun _ => ⟨rfl, rfl, rfl⟩, fun h => absurd rfl h, fun h => absurd rfl h⟩
  | cons c t =>
    refine ⟨?_, fun _ => ?_, fun _ => ?_⟩
    · intro h
      cases h
    · refine ⟨t.foldl (fun best item => if cardGt item best then item else best) c,
        rfl, ?_, ?_⟩
      · rcases selectFold_mem cardGt t c with h | h
        · rw [h]; exact List.mem_cons_self c t
        · exact List.mem_cons_of_mem c h
      · intro x hx
        exact selectFold_best cardGt cardGt_irrefl cardGt_asymm cardGt_nle_trans t c x
          (List.mem_cons.mp hx)
    · refine ⟨t.foldl (fun best item => if cardLt item best then item else best) c,
        rfl, ?_, ?_⟩
      · rcases selectFold_mem cardLt t c with h | h
        · rw [h]; exact List.mem_cons_self c t
        · exact List.mem_cons_of_mem c h
      · intro x hx
        exact selectFold_best cardLt cardLt_irrefl cardLt_asymm cardLt_nle_trans t c x
          (List.mem_cons.mp hx)

/-- Witness for C4 at the empty deck and a concrete one-card deck. -/
theorem claim_C4_witness :
    (Deck.draw ([] : List Card) = (none, []) ∧ Deck.pyMax [] = none ∧
      Deck.pyMin [] = none) ∧
    (∃ m, Deck.pyMax [twoOfClubs] = some m ∧ m ∈ [twoOfClubs] ∧
      ∀ x, x ∈ [twoOfClubs] → cardGt x m = false) :=
  ⟨(claim_C4 []).1 rfl, (claim_C4 [twoOfClubs]).2.1 (by simp)⟩

/-- C5: `add_card` on any non-`Card` argument fails with `TypeError` and
leaves the deck contents exactly as they were; on a `Card` argument it
appends the card at the end, raising nothing. -/
theorem claim_C5 (deck : List Card) (v : PyValue) :
    (v.isCard = false → Deck.add_card deck v = (some .typeError, deck)) ∧
    (∀ c : Card, Deck.add_card deck (.card c) = (none, deck ++ [c])) := by
  constructor
  · intro h
    cases v with
    | card c => simp [PyValue.isCard] at h
    | intVal n => rfl
    | strVal s => rfl
    | noneVal => rfl
  · intro c
    rfl

/-- Witness for C5: adding `None` to a one-card deck fails and keeps the
deck; adding a card appends at the end. -/
theorem claim_C5_witness :
    Deck.add_card [twoOfClubs] .noneVal = (some .typeError, [twoOfClubs]) ∧
    Deck.add_card [] (.card twoOfClubs) = (none, [] ++ [twoOfClubs]) :=
  ⟨(claim_C5 [twoOfClubs] .noneVal).1 rfl, (claim_C5 [] .noneVal).2 twoOfClubs⟩

set_option maxHeartbeats 1000000 in
/-- C6: for any two cards, `<`, `==`, `>` are mutually exclusive and
exactly one of them holds: the tuple ordering on (rank ordinal, suit
ordinal) is a total order. -/
theorem claim_C6 : ∀ a b : Card,
    (cardLt a b = true ∨ cardEqb a b = true ∨ cardGt a b = true) ∧
    ¬(cardLt a b = true ∧ cardEqb a b = true) ∧
    ¬(cardLt a b = true ∧ cardGt a b = true) ∧
    ¬(cardEqb a b = true ∧ cardGt a b = true) := by
  decide

/-- C7: comparing a card with any non-`Card` operand makes `__eq__`,
`__lt__` and `__gt__` all return the `NotImplemented` sentinel instead of
raising, leaving the outcome to the interpreter. -/
theorem claim_C7 (a : Card) (v : PyValue) (h : v.isCard = false) :
    a.pyEq v = .notImplemented ∧ a.pyLt v = .notImplemented ∧
    a.pyGt v = .notImplemented := by
  cases v with
  | card c => simp [PyValue.isCard] at h
  | intVal n => exact ⟨rfl, rfl, rfl⟩
  | strVal s => exact ⟨rfl, rfl, rfl⟩
  | noneVal => exact ⟨rfl, rfl, rfl⟩

/-- Witness for C7 at a concrete card and the integer operand 0. -/
theorem claim_C7_witness :
    twoOfClubs.pyEq (.intVal 0) = .notImplemented ∧
    twoOfClubs.pyLt (.intVal 0) = .notImplemented ∧
    twoOfClubs.pyGt (.intVal 0) = .notImplemented :=
  claim_C7 twoOfClubs (.intVal 0) rfl

/-- C8: the hash is consistent with equality — equal cards (under
`__eq__`'s tuple comparison) have equal hashes. -/
theorem claim_C8 (a b : Card) (h : cardEqb a b = true) :
    cardHash a = cardHash b := by
  simp only [cardEqb, Bool.and_eq_true, decide_eq_true_eq] at h
  unfold cardHash
  rw [h.1, h.2]

/-- Witness for C8 at a concrete pair of equal cards. -/
theorem claim_C8_witness :
    cardEqb twoOfClubs twoOfClubs = true ∧ cardHash twoOfClubs = cardHash twoOfClubs :=
  ⟨by decide, claim_C8 twoOfClubs twoOfClubs (by decide)⟩

/-- C9: the `cards` accessor allocates a fresh list whose contents equal
the deck's current contents; taking two snapshots without intervening
mutation yields equal contents at distinct references, and mutating the
first snapshot changes neither the deck's list nor the second snapshot. -/
theorem claim_C9 (s : Store) (d : Nat) (hd : d < s.next) (l : List Card) :
    ((Deck.cardsProp s d).2.mem (Deck.cardsProp s d).1 = s.mem d) ∧
    ((Deck.cardsProp s d).1 ≠ d) ∧
    ((Deck.cardsProp ((Deck.cardsProp s d).2) d).2.mem
        (Deck.cardsProp ((Deck.cardsProp s d).2) d).1 =
      (Deck.cardsProp ((Deck.cardsProp s d).2) d).2.mem (Deck.cardsProp s d).1) ∧
    ((Deck.cardsProp ((Deck.cardsProp s d).2) d).1 ≠ (Deck.cardsProp s d).1) ∧
    ((((Deck.cardsProp ((Deck.cardsProp s d).2) d).2.setList
        (Deck.cardsProp s d).1 l).mem d = s.mem d) ∧
      (((Deck.cardsProp ((Deck.cardsProp s d).2) d).2.setList
          (Deck.cardsProp s d).1 l).mem
          (Deck.cardsProp ((Deck.cardsProp s d).2) d).1 =
        (Deck.cardsProp ((Deck.cardsProp s d).2) d).2.mem
          (Deck.cardsProp ((Deck.cardsProp s d).2) d).1)) := by
  have h1 : d ≠ s.next := by omega
  have h2 : d ≠ s.next + 1 := by omega
  have h3 : s.next ≠ s.next + 1 := by omega
  have h4 : s.next + 1 ≠ s.next := by omega
  have h5 : s.next ≠ d := by omega
  simp [Deck.cardsProp, Store.alloc, Store.setList, h1, h2, h3, h4, h5]

/-- A concrete heap holding one deck object (the fresh 52-card deck at
reference 0). -/
def initStore : Store :=
  ⟨1, fun r => if r = 0 then Deck.freshDeck else []⟩

/-- Witness for C9 at the concrete one-deck heap. -/
theorem claim_C9_witness :
    ((Deck.cardsProp initStore 0).2.mem (Deck.cardsProp initStore 0).1 =
      initStore.mem 0) ∧
    ((Deck.cardsProp initStore 0).1 ≠ 0) ∧
    ((Deck.cardsProp ((Deck.cardsProp initStore 0).2) 0).2.mem
        (Deck.cardsProp ((Deck.cardsProp initStore 0).2) 0).1 =
      (Deck.cardsProp ((Deck.cardsProp initStore 0).2) 0).2.mem
        (Deck.cardsProp initStore 0).1) ∧
    ((Deck.cardsProp ((Deck.cardsProp initStore 0).2) 0).1 ≠
      (Deck.cardsProp initStore 0).1) ∧
    ((((Deck.cardsProp ((Deck.cardsProp initStore 0).2) 0).2.setList
        (Deck.cardsProp initStore 0).1 []).mem 0 = initStore.mem 0) ∧
      (((Deck.cardsProp ((Deck.cardsProp initStore 0).2) 0).2.setList
          (Deck.cardsProp initStore 0).1 []).mem
          (Deck.cardsProp ((Deck.cardsProp initStore 0).2) 0).1 =
        (Deck.cardsProp ((Deck.cardsProp initStore 0).2) 0).2.mem
          (Deck.cardsProp ((Deck.cardsProp initStore 0).2) 0).1)) :=
  claim_C9 initStore 0 (by decide) []

/-- C10: for a deck of length N ≥ 1 and 1 ≤ k ≤ N, indexing with the
negative index -k succeeds (no `IndexError`) and returns the card at
position N - k, matching host-list semantics. -/
theorem claim_C10 (deck : List Card) (k : Nat) (h1 : 1 ≤ k) (h2 : k ≤ deck.length) :
    ∃ c, Deck.getitem deck (-(k : Int)) = .ok c ∧
      deck.get? (deck.length - k) = some c := by
  have hneg : ¬ (0 ≤ -(k : Int)) := by omega
  have hcond : ((deck.length : Int) + -(k : Int)).toNat < deck.length ∧
      0 ≤ (deck.length : Int) + -(k : Int) := by omega
  rw [Deck.getitem, if_neg hneg, dif_pos hcond]
  have hidx : ((deck.length : Int) + -(k : Int)).toNat = deck.length - k := by omega
  refine ⟨_, rfl, ?_⟩
  rw [← hidx]
  exact List.get?_eq_get hcond.1

/-- Witness for C10: index -1 on the fresh 52-card deck returns the card
at position 51. -/
theorem claim_C10_witness :
    ∃ c, Deck.getitem Deck.freshDeck (-((1 : Nat) : Int)) = .ok c ∧
      Deck.freshDeck.get? (Deck.freshDeck.length - 1) = some c :=
  claim_C10 Deck.freshDeck 1 (by decide) (by decide)
